import Mathlib

/-!
Shallow embedding of `src/c++/server/include/Netlib.hpp` (namespace
`netlib::network::tcp`): the `socket` class and the `server` class.

Modelling conventions:
- The OS syscall layer (`getaddrinfo`, `::socket`, `setsockopt`, `::bind`,
  `::listen`, `::accept`, `getnameinfo`, `::connect`, `::send`, `::recv`,
  `::close`) is external; each operation takes the syscall results as an
  explicit oracle argument (`-1` encodes the C failure return, mirroring the
  source's checks).
- C++ exceptions (`__LOGIC_ERROR__` / `__RUNTIME_ERROR__`) become an
  `Except Err` result; on a throw the object keeps all mutations made before
  the throwing statement, exactly as a C++ object does, so every operation
  returns the final field state alongside the result.
- `__DISPLAY_ERROR__` and `std::cout` output is collected in an `output` list.
- Every OS call an operation performs is recorded, in order, in a `calls`
  list, so that "makes exactly one underlying call" style properties are
  provable.
- Byte data (`std::vector<char>`, `std::string` contents) is `List Nat`.
- The `addrinfo` candidate chain produced by `getaddrinfo` is abstracted to a
  list of candidate identifiers (`List Nat`); the oracle maps each candidate
  to its `::socket` result.
-/

/-- The two C++ exception kinds the source throws: `std::logic_error`
(`__LOGIC_ERROR__`, lifecycle/sequencing bugs) and `std::runtime_error`
(`__RUNTIME_ERROR__`, OS-level failures). -/
inductive Err where
  | logicError (msg : String)
  | runtimeError (msg : String)
deriving DecidableEq, Repr

/-- One OS-level syscall performed by an operation, with the arguments the
source passes to it. -/
inductive OsCall where
  | getaddrinfo (host : String) (port : Nat)
  | socketCreate (cand : Nat)
  | setsockopt (fd : Int)
  | osBind (fd : Int)
  | osListen (fd : Int) (backlog : Nat)
  | osAccept (fd : Int)
  | getnameinfo (flags : Nat)
  | osConnect (fd : Int)
  | osSend (fd : Int) (len : Nat)
  | osRecv (fd : Int) (len : Nat)
  | osClose (fd : Int)
deriving DecidableEq, Repr

/-- `NI_NUMERICHOST` flag for `getnameinfo` (glibc value). -/
def NI_NUMERICHOST : Nat := 1

/-- `NI_NUMERICSERV` flag for `getnameinfo` (glibc value). -/
def NI_NUMERICSERV : Nat := 2

/-- `tools::BACKLOG`. -/
def BACKLOG : Nat := 30

/-- `tools::BUFFER_SIZE`. -/
def BUFFER_SIZE : Nat := 8096

/-- The fields of class `tcp::socket`.  `fd_ = -1` is the unopened/closed
sentinel.  `addrinfo_` is the abstracted candidate chain stored by
`get_addr_info`; `v_addrinfo_` the candidate chosen by `create_socket`. -/
structure socket where
  fd_ : Int
  host_ : String
  port_ : Nat
  addrinfo_ : List Nat
  v_addrinfo_ : Option Nat
  is_socket_bound_ : Bool
deriving DecidableEq, Repr

/-- The default constructor `socket(void)`. -/
def socket.mk0 : socket :=
  { fd_ := -1, host_ := "127.0.0.1", port_ := 12345,
    addrinfo_ := [], v_addrinfo_ := none, is_socket_bound_ := false }

/-- The constructor `socket(int fd, const std::string &host, unsigned int
port)` used by `accept` to wrap an already-accepted connection. -/
def socket.fromFd (fd : Int) (host : String) (port : Nat) : socket :=
  { fd_ := fd, host_ := host, port_ := port,
    addrinfo_ := [], v_addrinfo_ := none, is_socket_bound_ := false }

/-- Result of one `socket` member-function call: final field state, the OS
calls made (in order), the text printed to std streams (in order), and the
returned value or thrown exception. -/
structure Res (α : Type) where
  state : socket
  calls : List OsCall
  output : List String
  result : Except Err α
deriving Repr

/-- `socket::get_addr_info`: on `getaddrinfo` failure throws a runtime error;
on success stores the (non-null) result chain into `addrinfo_` (the source's
`if (infos)` guard keeps the old value when the chain is null/empty). -/
def socket.get_addr_info (s : socket) (gai : Option (List Nat)) : Res Unit :=
  match gai with
  | none =>
      ⟨s, [OsCall.getaddrinfo s.host_ s.port_], [],
        .error (.runtimeError "tcp::socket::get_addr_info: getaddrinfo() failed.")⟩
  | some cands =>
      if cands.isEmpty then
        ⟨s, [OsCall.getaddrinfo s.host_ s.port_], [], .ok ()⟩
      else
        ⟨{ s with addrinfo_ := cands }, [OsCall.getaddrinfo s.host_ s.port_], [], .ok ()⟩

/-- The candidate loop inside `socket::create_socket`: tries `::socket` on
each candidate in order; a `-1` result prints an error and continues; the
first success is kept.  Returns the chosen candidate and its descriptor (if
any), the printed output and the OS calls made. -/
def create_socket_loop (socketRes : Nat → Int) :
    List Nat → Option (Nat × Int) × List String × List OsCall
  | [] => (none, [], [])
  | c :: rest =>
      if socketRes c = -1 then
        let r := create_socket_loop socketRes rest
        (r.1, "failed to create socket ..." :: r.2.1, OsCall.socketCreate c :: r.2.2)
      else
        (some (c, socketRes c), [], [OsCall.socketCreate c])

/-- `socket::create_socket`: returns immediately when a descriptor is already
open; otherwise walks the `addrinfo_` chain, keeping the first candidate for
which `::socket` succeeds (stored in `v_addrinfo_`); throws a runtime error
when every candidate fails (the descriptor is then still `-1`). -/
def socket.create_socket (s : socket) (socketRes : Nat → Int) : Res Unit :=
  if s.fd_ ≠ -1 then ⟨s, [], [], .ok ()⟩
  else
    match (create_socket_loop socketRes s.addrinfo_).1 with
    | some cf =>
        ⟨{ s with fd_ := cf.2, v_addrinfo_ := some cf.1 },
          (create_socket_loop socketRes s.addrinfo_).2.2,
          (create_socket_loop socketRes s.addrinfo_).2.1, .ok ()⟩
    | none =>
        ⟨s, (create_socket_loop socketRes s.addrinfo_).2.2,
          (create_socket_loop socketRes s.addrinfo_).2.1,
          .error (.runtimeError "tcp::socket::create_socket: socket failed().")⟩

/-- Syscall results consumed by `socket::bind`: the `getaddrinfo` outcome,
the `::socket` result per candidate, and the `setsockopt` / `::bind`
results. -/
structure BindOracle where
  gai : Option (List Nat)
  socketRes : Nat → Int
  setsockoptRes : Int
  bindRes : Int

/-- `socket::bind`: stores `host_`/`port_`, resolves, creates the descriptor,
sets `SO_REUSEADDR`, calls `::bind`; only after all of that succeeds is
`is_socket_bound_` set.  A throw at any stage keeps the mutations already
made (in particular a descriptor created before a `setsockopt`/`::bind`
failure stays in `fd_`). -/
def socket.bind (s : socket) (host : String) (port : Nat) (o : BindOracle) : Res Unit :=
  let s0 := { s with host_ := host, port_ := port }
  let r1 := s0.get_addr_info o.gai
  match r1.result with
  | .error e => ⟨r1.state, r1.calls, r1.output, .error e⟩
  | .ok _ =>
    let r2 := r1.state.create_socket o.socketRes
    match r2.result with
    | .error e => ⟨r2.state, r1.calls ++ r2.calls, r1.output ++ r2.output, .error e⟩
    | .ok _ =>
      if o.setsockoptRes = -1 then
        ⟨r2.state, r1.calls ++ r2.calls ++ [OsCall.setsockopt r2.state.fd_],
          r1.output ++ r2.output,
          .error (.runtimeError "tcp::socket::bind: setsockopt() failed.")⟩
      else if o.bindRes = -1 then
        ⟨r2.state,
          r1.calls ++ r2.calls ++ [OsCall.setsockopt r2.state.fd_, OsCall.osBind r2.state.fd_],
          r1.output ++ r2.output,
          .error (.runtimeError "tcp::socket::bind: bind() failed.")⟩
      else
        ⟨{ r2.state with is_socket_bound_ := true },
          r1.calls ++ r2.calls ++ [OsCall.setsockopt r2.state.fd_, OsCall.osBind r2.state.fd_],
          r1.output ++ r2.output, .ok ()⟩

/-- `socket::listen`: throws a logic error when the socket is not bound; when
`backlog > SOMAXCONN` prints a truncation warning (not fatal); then calls
`::listen` with the unmodified `backlog`, throwing a runtime error on `-1`.
`somaxconn` is the platform's `SOMAXCONN` constant. -/
def socket.listen (s : socket) (backlog somaxconn : Nat) (listenRes : Int) : Res Unit :=
  if s.is_socket_bound_ = false then
    ⟨s, [], [],
      .error (.logicError
        "tcp::socket::listen: Socket must be bound before listenning for incoming connections.")⟩
  else
    let warn :=
      if backlog > somaxconn then
        ["tcp::socket::listen: Param backlog greater than SOMAXCONN.\nPlease refer to the value in /proc/sys/net/core/somaxconn. Param backlog will be truncated."]
      else []
    if listenRes = -1 then
      ⟨s, [OsCall.osListen s.fd_ backlog], warn,
        .error (.runtimeError "tcp::socket::listen: listen() failed.")⟩
    else
      ⟨s, [OsCall.osListen s.fd_ backlog], warn, .ok ()⟩

/-- The queue depth the OS actually uses for a `listen` request: the kernel
clamps the requested backlog to `SOMAXCONN` (the behaviour the source's
warning message refers to; the source itself passes `backlog` through
unmodified). -/
def osEffectiveBacklog (backlog somaxconn : Nat) : Nat := min backlog somaxconn

/-- Whether an OS call is an `::accept` call. -/
def OsCall.isAccept : OsCall → Bool
  | OsCall.osAccept _ => true
  | _ => false

/-- Whether an OS call is a `::bind` or `::connect` call. -/
def OsCall.isBindOrConnect : OsCall → Bool
  | OsCall.osBind _ => true
  | OsCall.osConnect _ => true
  | _ => false

/-- Syscall results consumed by `socket::accept`: the `::accept` result and
the `getnameinfo` outcome (numeric peer host and port). -/
structure AcceptOracle where
  acceptRes : Int
  nameinfoRes : Option (String × Nat)
deriving Repr

/-- `socket::accept`: calls `::accept` (runtime error on `-1`), then
`getnameinfo` with `NI_NUMERICHOST | NI_NUMERICSERV` (runtime error on
failure), and returns a brand-new socket built by the
`socket(int, const std::string&, unsigned int)` constructor from the new
descriptor and the peer's numeric host/port.  `this` is not modified. -/
def socket.accept (s : socket) (o : AcceptOracle) : Res socket :=
  if o.acceptRes = -1 then
    ⟨s, [OsCall.osAccept s.fd_], [],
      .error (.runtimeError "tcp::socket::accpet: accept() failed.")⟩
  else
    match o.nameinfoRes with
    | none =>
        ⟨s, [OsCall.osAccept s.fd_, OsCall.getnameinfo (NI_NUMERICHOST ||| NI_NUMERICSERV)], [],
          .error (.runtimeError "tcp::socket::accept: getnameinfo() failed.")⟩
    | some hp =>
        ⟨s, [OsCall.osAccept s.fd_, OsCall.getnameinfo (NI_NUMERICHOST ||| NI_NUMERICSERV)], [],
          .ok (socket.fromFd o.acceptRes hp.1 hp.2)⟩

/-- Syscall results consumed by `socket::connect`. -/
structure ConnectOracle where
  gai : Option (List Nat)
  socketRes : Nat → Int
  connectRes : Int

/-- `socket::connect`: throws a logic error when the socket is bound (server
role); otherwise stores `host_`/`port_`, resolves, creates the descriptor and
calls `::connect`, throwing a runtime error on `-1`. -/
def socket.connect (s : socket) (host : String) (port : Nat) (o : ConnectOracle) : Res Unit :=
  if s.is_socket_bound_ = true then
    ⟨s, [], [],
      .error (.logicError
        ("tcp::socket::connect: Trying to connect a socket bound on port: " ++
          toString s.port_ ++
          ". Invalid operation for a socket planned for a server application."))⟩
  else
    let s0 := { s with host_ := host, port_ := port }
    let r1 := s0.get_addr_info o.gai
    match r1.result with
    | .error e => ⟨r1.state, r1.calls, r1.output, .error e⟩
    | .ok _ =>
      let r2 := r1.state.create_socket o.socketRes
      match r2.result with
      | .error e => ⟨r2.state, r1.calls ++ r2.calls, r1.output ++ r2.output, .error e⟩
      | .ok _ =>
        if o.connectRes = -1 then
          ⟨r2.state, r1.calls ++ r2.calls ++ [OsCall.osConnect r2.state.fd_],
            r1.output ++ r2.output,
            .error (.runtimeError "tcp::socket::connect: connect() failed.")⟩
        else
          ⟨r2.state, r1.calls ++ r2.calls ++ [OsCall.osConnect r2.state.fd_],
            r1.output ++ r2.output, .ok ()⟩

/-- `socket::send(const std::vector<char>&, std::size_t)`: throws a logic
error when no descriptor is open; otherwise makes exactly one `::send` call
with the full `message_len`, throws a runtime error when it returns `-1`, and
otherwise returns that single call's byte count unchanged. -/
def socket.send (s : socket) (message : List Nat) (message_len : Nat) (sendRes : Int) :
    Res Int :=
  if s.fd_ = -1 then
    ⟨s, [], [],
      .error (.logicError
        "tcp::socket::send: Invalid operation. Trying to send data on a non connected socket.")⟩
  else if sendRes = -1 then
    ⟨s, [OsCall.osSend s.fd_ message_len], [],
      .error (.runtimeError "tcp::socket::send: send() failed.")⟩
  else
    ⟨s, [OsCall.osSend s.fd_ message_len], [], .ok sendRes⟩

/-- `socket::close`: when a descriptor is open, calls `::close`; a `-1`
result throws a runtime error *before* the `fd_ = -1` assignment, so the old
descriptor value is kept; otherwise (including the no-descriptor case)
`fd_` ends up `-1`. -/
def socket.close (s : socket) (closeRes : Int) : Res Unit :=
  if s.fd_ ≠ -1 then
    if closeRes = -1 then
      ⟨s, [OsCall.osClose s.fd_], [],
        .error (.runtimeError "tcp::socket::close: close() failed.")⟩
    else
      ⟨{ s with fd_ := -1 }, [OsCall.osClose s.fd_], [], .ok ()⟩
  else
    ⟨{ s with fd_ := -1 }, [], [], .ok ()⟩

/-- `socket::receive`: throws a logic error when no descriptor is open;
allocates a zero-initialized buffer of `size_to_read` bytes and makes one
`::recv` call.  `recvRes = none` models a `-1` return (runtime error);
`recvRes = some data` models a successful read of `data` (at most
`size_to_read` bytes) into the front of the buffer.  A zero-byte read prints
a notification and calls `close()` (whose own failure propagates); in every
non-throwing path the full-length buffer is returned. -/
def socket.receive (s : socket) (size_to_read : Nat) (recvRes : Option (List Nat))
    (closeRes : Int) : Res (List Nat) :=
  if s.fd_ = -1 then
    ⟨s, [], [],
      .error (.logicError
        "tcp::socket::send: Invalid operation. Trying to receive data on a non connected socket.")⟩
  else
    match recvRes with
    | none =>
        ⟨s, [OsCall.osRecv s.fd_ size_to_read], [],
          .error (.runtimeError "tcp::socket::receive: recv() failed.")⟩
    | some data =>
        let buffer := data ++ List.replicate (size_to_read - data.length) 0
        if data.length = 0 then
          let rc := s.close closeRes
          match rc.result with
          | .error e =>
              ⟨rc.state, OsCall.osRecv s.fd_ size_to_read :: rc.calls,
                "Connection closed by peer.\n" :: rc.output, .error e⟩
          | .ok _ =>
              ⟨rc.state, OsCall.osRecv s.fd_ size_to_read :: rc.calls,
                "Connection closed by peer.\n" :: rc.output, .ok buffer⟩
        else
          ⟨s, [OsCall.osRecv s.fd_ size_to_read], [], .ok buffer⟩

/-- The bytes of a string literal (each char's code point; all protocol text
here is ASCII, matching the C++ `char` data). -/
def strBytes (s : String) : List Nat := s.data.map Char.toNat

/-- `std::string cmd(rcv.data())`: the C-string constructor reads bytes up to
(excluding) the first NUL byte. -/
def cstring (bytes : List Nat) : List Nat := bytes.takeWhile (fun b => b != 0)

/-- The fields of class `tcp::server`.  The `std::function` callback is
abstracted to whether one is registered (`callback_` non-null); its
invocations are recorded as events. -/
structure server where
  socket_ : socket
  is_running_ : Bool
  has_callback_ : Bool
deriving DecidableEq, Repr

/-- The default constructor `server(void)`. -/
def server.mk0 : server :=
  { socket_ := socket.mk0, is_running_ := false, has_callback_ := false }

/-- `server::on_accept`: registers the dispatch callback. -/
def server.on_accept (sv : server) : server := { sv with has_callback_ := true }

/-- Observable interaction events of `server::process`: a reply sent to the
accepted client socket, and an invocation of the registered callback with the
parsed command and that client socket, in program order. -/
inductive Event where
  | sent (client : socket) (bytes : List Nat)
  | callbackInvoked (cmd : List Nat) (client : socket)
deriving DecidableEq, Repr

/-- Result of one `server` member-function call. -/
structure SRes (α : Type) where
  state : server
  calls : List OsCall
  output : List String
  events : List Event
  result : Except Err α
deriving Repr

/-- Syscall results consumed by `server::process` (one accept-receive-send
cycle). -/
structure ProcessOracle where
  acceptRes : Int
  nameinfoRes : Option (String × Nat)
  recvRes : Option (List Nat)
  closeRes : Int
  sendRes : Int
deriving Repr

/-- `server::process`: accepts one connection on the listening socket, reads
`BUFFER_SIZE` bytes from the client, takes the C-string prefix of the buffer
as the command, erases its last character, sends the reply
`"Executing command [" ++ cmd ++ "] ...\n"` to the client, and then, if a
callback is registered, invokes it with the command and the client socket —
in that order.  Any thrown exception propagates. -/
def server.process (sv : server) (o : ProcessOracle) : SRes Unit :=
  let ra := sv.socket_.accept ⟨o.acceptRes, o.nameinfoRes⟩
  match ra.result with
  | .error e => ⟨{ sv with socket_ := ra.state }, ra.calls, ra.output, [], .error e⟩
  | .ok client =>
    let rr := client.receive BUFFER_SIZE o.recvRes o.closeRes
    match rr.result with
    | .error e =>
        ⟨{ sv with socket_ := ra.state }, ra.calls ++ rr.calls, ra.output ++ rr.output, [],
          .error e⟩
    | .ok rcv =>
      let client := rr.state
      let cmd := (cstring rcv).dropLast
      let response := strBytes "Executing command [" ++ cmd ++ strBytes "] ...\n"
      let rs := client.send response response.length o.sendRes
      match rs.result with
      | .error e =>
          ⟨{ sv with socket_ := ra.state }, ra.calls ++ rr.calls ++ rs.calls,
            ra.output ++ rr.output ++ rs.output, [], .error e⟩
      | .ok _ =>
          ⟨{ sv with socket_ := ra.state }, ra.calls ++ rr.calls ++ rs.calls,
            ra.output ++ rr.output ++ rs.output,
            Event.sent client response ::
              (if sv.has_callback_ then [Event.callbackInvoked cmd client] else []),
            .ok ()⟩

/-- Syscall results consumed by `server::run`. -/
structure RunOracle where
  bindO : BindOracle
  somaxconn : Nat
  listenRes : Int
  processO : ProcessOracle

/-- `server::run`: throws a runtime error when already running; otherwise
binds the internal socket, listens with `tools::BACKLOG`, sets the running
flag, and performs exactly one `process` cycle.  Exceptions from any stage
propagate; the flag stays `true` after a completed cycle (no reset). -/
def server.run (sv : server) (host : String) (port : Nat) (o : RunOracle) : SRes Unit :=
  if sv.is_running_ = true then
    ⟨sv, [], [], [], .error (.runtimeError "tcp::server::run: Server is aldready running.")⟩
  else
    let rb := sv.socket_.bind host port o.bindO
    match rb.result with
    | .error e => ⟨{ sv with socket_ := rb.state }, rb.calls, rb.output, [], .error e⟩
    | .ok _ =>
      let rl := rb.state.listen BACKLOG o.somaxconn o.listenRes
      match rl.result with
      | .error e =>
          ⟨{ sv with socket_ := rl.state }, rb.calls ++ rl.calls, rb.output ++ rl.output, [],
            .error e⟩
      | .ok _ =>
        let sv1 : server := { sv with socket_ := rl.state, is_running_ := true }
        let rp := sv1.process o.processO
        ⟨rp.state, rb.calls ++ rl.calls ++ rp.calls, rb.output ++ rl.output ++ rp.output,
          rp.events, rp.result⟩

/-- `server::stop`: no-op when not running; otherwise closes the listening
socket (an exception from `close` propagates, skipping the flag reset) and
clears the running flag. -/
def server.stop (sv : server) (closeRes : Int) : SRes Unit :=
  if sv.is_running_ = false then ⟨sv, [], [], [], .ok ()⟩
  else
    let rc := sv.socket_.close closeRes
    match rc.result with
    | .error e => ⟨{ sv with socket_ := rc.state }, rc.calls, rc.output, [], .error e⟩
    | .ok _ =>
        ⟨{ sv with socket_ := rc.state, is_running_ := false }, rc.calls, rc.output, [], .ok ()⟩


/-- Claim C1: with a callback registered, when the accepted client sends the
bytes "PING\n" in one message, `process()` receives them (one `::recv` of
`BUFFER_SIZE` bytes), strips the trailing terminator byte, sends back exactly
the reply "Executing command [PING] ...\n" to the client, and then invokes
the registered callback with command "PING" and the accepted client socket,
in that order (the reply send event precedes the callback event, and the
`::send` OS call precedes any callback). -/
theorem process_ping_reply_then_callback (sv : server) (a : Int) (h : String) (p : Nat)
    (cr sr : Int) (hcb : sv.has_callback_ = true) (ha : a ≠ -1) (hs : sr ≠ -1) :
    (sv.process ⟨a, some (h, p), some (strBytes "PING\n"), cr, sr⟩).result = .ok () ∧
    (sv.process ⟨a, some (h, p), some (strBytes "PING\n"), cr, sr⟩).events =
      [Event.sent (socket.fromFd a h p) (strBytes "Executing command [PING] ...\n"),
       Event.callbackInvoked (strBytes "PING") (socket.fromFd a h p)] ∧
    (sv.process ⟨a, some (h, p), some (strBytes "PING\n"), cr, sr⟩).calls =
      [OsCall.osAccept sv.socket_.fd_, OsCall.getnameinfo (NI_NUMERICHOST ||| NI_NUMERICSERV),
       OsCall.osRecv a BUFFER_SIZE,
       OsCall.osSend a (strBytes "Executing command [PING] ...\n").length] := by
  have h5 : strBytes "PING\n" = [80,73,78,71,10] := by decide
  have hbuf : (cstring ([80,73,78,71,10] ++ List.replicate (BUFFER_SIZE - [80,73,78,71,10].length) (0:Nat))).dropLast = strBytes "PING" := by decide
  have hresp : strBytes "Executing command [" ++ strBytes "PING" ++ strBytes "] ...\n"
      = strBytes "Executing command [PING] ...\n" := by decide
  have hlen : ¬(([80,73,78,71,10] : List Nat).length = 0) := by decide
  simp only [server.process, socket.accept, socket.receive, socket.send, socket.fromFd,
    h5, if_neg ha, if_neg hs, if_neg hlen, hcb, hbuf, hresp]
  simp


/-- The candidate loop fails exactly when every candidate's `::socket` call
fails. -/
theorem create_socket_loop_none_iff (f : Nat → Int) (cands : List Nat) :
    (create_socket_loop f cands).1 = none ↔ ∀ c ∈ cands, f c = -1 := by
  induction cands with
  | nil => simp [create_socket_loop]
  | cons c rest ih =>
    by_cases hc : f c = -1
    · simp [create_socket_loop, hc, ih]
    · simp [create_socket_loop, hc]

/-- A successful candidate loop yields the `::socket` result of its chosen
candidate, which is not `-1`. -/
theorem create_socket_loop_some (f : Nat → Int) (cands : List Nat) (c : Nat) (fd : Int)
    (h : (create_socket_loop f cands).1 = some (c, fd)) : f c = fd ∧ fd ≠ -1 := by
  induction cands with
  | nil => simp [create_socket_loop] at h
  | cons c0 rest ih =>
    by_cases hc : f c0 = -1
    · simp [create_socket_loop, hc] at h
      exact ih h
    · simp [create_socket_loop, hc] at h
      obtain ⟨h1, h2⟩ := h
      subst h1
      subst h2
      exact ⟨rfl, hc⟩


set_option maxHeartbeats 1000000

/-- Claim C2 (amended): starting from an unopened, unbound socket, a `bind`
failure at any stage is fatal to that call and leaves `isBound` false; a
resolution or descriptor-creation failure leaves the descriptor at the
unopened sentinel `-1`, but a socket-option or OS-bind failure leaves the
just-created descriptor open (not the sentinel). -/
theorem bind_failure_stages (s : socket) (host : String) (port : Nat)
    (gai : Option (List Nat)) (f : Nat → Int) (sor bor : Int)
    (hfd : s.fd_ = -1) (hb : s.is_socket_bound_ = false) (ha : s.addrinfo_ = []) :
    (∀ e, (s.bind host port ⟨gai, f, sor, bor⟩).result = .error e →
        (s.bind host port ⟨gai, f, sor, bor⟩).state.is_socket_bound_ = false) ∧
    (gai = none →
        (s.bind host port ⟨gai, f, sor, bor⟩).state.fd_ = -1 ∧
        (s.bind host port ⟨gai, f, sor, bor⟩).result
          = .error (.runtimeError "tcp::socket::get_addr_info: getaddrinfo() failed.")) ∧
    (∀ cands, gai = some cands → (∀ c ∈ cands, f c = -1) →
        (s.bind host port ⟨gai, f, sor, bor⟩).state.fd_ = -1 ∧
        (s.bind host port ⟨gai, f, sor, bor⟩).result
          = .error (.runtimeError "tcp::socket::create_socket: socket failed().")) ∧
    (∀ cands, gai = some cands → ¬(∀ c ∈ cands, f c = -1) → sor = -1 →
        (s.bind host port ⟨gai, f, sor, bor⟩).state.fd_ ≠ -1 ∧
        (s.bind host port ⟨gai, f, sor, bor⟩).result
          = .error (.runtimeError "tcp::socket::bind: setsockopt() failed.")) ∧
    (∀ cands, gai = some cands → ¬(∀ c ∈ cands, f c = -1) → sor ≠ -1 → bor = -1 →
        (s.bind host port ⟨gai, f, sor, bor⟩).state.fd_ ≠ -1 ∧
        (s.bind host port ⟨gai, f, sor, bor⟩).result
          = .error (.runtimeError "tcp::socket::bind: bind() failed.")) := by
  rcases gai with _ | cands
  · simp [socket.bind, socket.get_addr_info, hb, hfd]
  · by_cases hce : cands.isEmpty
    · have hcand : cands = [] := List.isEmpty_iff.mp hce
      subst hcand
      simp [socket.bind, socket.get_addr_info, socket.create_socket, create_socket_loop,
        ha, hb, hfd]
    · cases hloop : (create_socket_loop f cands).1 with
      | none =>
        have hall : ∀ c ∈ cands, f c = -1 := (create_socket_loop_none_iff f cands).mp hloop
        simp [socket.bind, socket.get_addr_info, socket.create_socket, hce, hb, hfd, hloop,
          hall]
        exact ⟨fun x hx hfx => absurd (hall x hx) hfx,
          fun x hx hfx => absurd (hall x hx) hfx⟩
      | some cf =>
        obtain ⟨c, fd⟩ := cf
        have hfd2 := create_socket_loop_some f cands c fd hloop
        have hnall : ¬(∀ c ∈ cands, f c = -1) := by
          intro hall
          rw [(create_socket_loop_none_iff f cands).mpr hall] at hloop
          exact Option.noConfusion hloop
        push_neg at hnall
        obtain ⟨cw, hcw, hfcw⟩ := hnall
        by_cases hsor : sor = -1
        · simp [socket.bind, socket.get_addr_info, socket.create_socket, hce, hb, hfd, hloop,
            hsor, hfd2.2]
          exact ⟨cw, hcw, hfcw⟩
        · by_cases hbor : bor = -1
          · simp [socket.bind, socket.get_addr_info, socket.create_socket, hce, hb, hfd,
              hloop, hsor, hbor, hfd2.2]
            exact ⟨cw, hcw, hfcw⟩
          · simp [socket.bind, socket.get_addr_info, socket.create_socket, hce, hb, hfd,
              hloop, hsor, hbor, hfd2.2]
            exact ⟨cw, hcw, hfcw⟩


/-- Every error `socket::bind` can throw. -/
theorem bind_result_errors (s : socket) (host : String) (port : Nat) (o : BindOracle)
    (e : Err) (he : (s.bind host port o).result = .error e) :
    e = .runtimeError "tcp::socket::get_addr_info: getaddrinfo() failed." ∨
    e = .runtimeError "tcp::socket::create_socket: socket failed()." ∨
    e = .runtimeError "tcp::socket::bind: setsockopt() failed." ∨
    e = .runtimeError "tcp::socket::bind: bind() failed." := by
  obtain ⟨gai, f, sor, bor⟩ := o
  rcases gai with _ | cands
  · simp [socket.bind, socket.get_addr_info] at he
    tauto
  · by_cases hce : cands.isEmpty
    · have hcand : cands = [] := List.isEmpty_iff.mp hce
      subst hcand
      by_cases hfd : s.fd_ = -1
      · cases hloop : (create_socket_loop f s.addrinfo_).1 <;>
          by_cases hsor : sor = -1 <;> by_cases hbor : bor = -1 <;>
          simp [socket.bind, socket.get_addr_info, socket.create_socket, hfd, hloop,
            hsor, hbor] at he <;> tauto
      · by_cases hsor : sor = -1 <;> by_cases hbor : bor = -1 <;>
          simp [socket.bind, socket.get_addr_info, socket.create_socket, hfd,
            hsor, hbor] at he <;> tauto
    · by_cases hfd : s.fd_ = -1
      · cases hloop : (create_socket_loop f cands).1 <;>
          by_cases hsor : sor = -1 <;> by_cases hbor : bor = -1 <;>
          simp [socket.bind, socket.get_addr_info, socket.create_socket, hce, hfd, hloop,
            hsor, hbor] at he <;> tauto
      · by_cases hsor : sor = -1 <;> by_cases hbor : bor = -1 <;>
          simp [socket.bind, socket.get_addr_info, socket.create_socket, hce, hfd,
            hsor, hbor] at he <;> tauto


/-- Claim C3 counterexample: a zero-byte read on an open socket with
`size_to_read = 4` succeeds and returns the buffer `[0,0,0,0]`, whose length
is 4, not a zero-length result as the claim states (the socket is closed as
claimed). -/
theorem receive_zero_full_buffer :
    (socket.receive (socket.fromFd 5 "127.0.0.1" 4242) 4 (some []) 0).result
      = .ok [0, 0, 0, 0] ∧
    (socket.receive (socket.fromFd 5 "127.0.0.1" 4242) 4 (some []) 0).state.fd_ = -1 ∧
    ([0, 0, 0, 0] : List Nat).length ≠ 0 := by
  exact ⟨rfl, rfl, by decide⟩

/-- Claim C3 (amended): when the underlying read on an open socket yields
zero bytes and the nested OS close succeeds, `receive` does not fail: it
prints the peer-closed notification, automatically closes this socket
(descriptor left at the unopened sentinel), and returns without error a
buffer of the full requested length filled with zero bytes (not a
zero-length result). -/
theorem receive_peer_closed (s : socket) (n : Nat) (cr : Int)
    (hfd : s.fd_ ≠ -1) (hcr : cr ≠ -1) :
    (s.receive n (some []) cr).result = .ok (List.replicate n 0) ∧
    (s.receive n (some []) cr).state.fd_ = -1 ∧
    (s.receive n (some []) cr).output = ["Connection closed by peer.\n"] := by
  simp [socket.receive, socket.close, hfd, hcr]

/-- Claim C4 counterexample: a `close` call in which the OS close fails
throws and leaves the descriptor at its old open value 7, not in the
unopened state as the claim states. -/
theorem close_os_failure_keeps_descriptor :
    (socket.close (socket.fromFd 7 "127.0.0.1" 4242) (-1)).result
      = .error (.runtimeError "tcp::socket::close: close() failed.") ∧
    (socket.close (socket.fromFd 7 "127.0.0.1" 4242) (-1)).state.fd_ = 7 := by
  exact ⟨rfl, rfl⟩

/-- Claim C4 (amended): when the OS close call succeeds, `close` leaves the
descriptor unopened and a second `close` never fails and leaves the same
unopened state; `close` on an unopened socket is a no-op that cannot fail
even if the OS close would fail; but a `close` whose OS close call fails
throws before the descriptor reset and leaves the descriptor unchanged. -/
theorem close_idempotent_when_os_succeeds (s : socket) (r1 r2 rf : Int)
    (h1 : r1 ≠ -1) (hrf : rf = -1) :
    ((s.close r1).result = .ok ()) ∧
    ((s.close r1).state.fd_ = -1) ∧
    (((s.close r1).state.close r2).result = .ok ()) ∧
    (((s.close r1).state.close r2).state = (s.close r1).state) ∧
    (s.fd_ = -1 → (s.close rf).result = .ok () ∧ (s.close rf).state = s) ∧
    (s.fd_ ≠ -1 →
      (s.close rf).result = .error (.runtimeError "tcp::socket::close: close() failed.") ∧
      (s.close rf).state = s) := by
  subst hrf
  obtain ⟨fd, host, port, ai, vai, bd⟩ := s
  by_cases hs : fd = -1
  · subst hs
    simp [socket.close, h1]
  · simp [socket.close, h1, hs]

/-- Claim C5 counterexample: `run` on an already-running server fails with
the `std::runtime_error` kind (the OS-failure kind), and for no message with
the `std::logic_error` (sequencing) kind, contradicting the claim that every
lifecycle violation uses the sequencing kind. -/
theorem run_while_running_runtime_error :
    (server.run ⟨socket.mk0, true, false⟩ "127.0.0.1" 12345
        ⟨⟨none, fun _ => -1, 0, 0⟩, 4096, 0, ⟨-1, none, none, 0, 0⟩⟩).result
      = .error (.runtimeError "tcp::server::run: Server is aldready running.") ∧
    ∀ m, (server.run ⟨socket.mk0, true, false⟩ "127.0.0.1" 12345
        ⟨⟨none, fun _ => -1, 0, 0⟩, 4096, 0, ⟨-1, none, none, 0, 0⟩⟩).result
      ≠ .error (.logicError m) := by
  constructor
  · rfl
  · intro m h
    simp [server.run] at h

/-- Claim C5 (amended): listen-before-bind, connect-on-a-bound-socket, and
send/receive-on-an-unopened-socket each fail immediately with the sequencing
error kind (`std::logic_error`), which is distinct from the OS-failure kind;
run-while-running also fails immediately, but with the OS-failure kind
(`std::runtime_error`), not the sequencing kind. -/
theorem lifecycle_violations_error_kinds (s1 s2 s3 s4 : socket) (sv : server)
    (b smx : Nat) (lr : Int) (host1 host2 : String) (port1 port2 : Nat)
    (co : ConnectOracle) (msg : List Nat) (len : Nat) (sr : Int)
    (n : Nat) (rr : Option (List Nat)) (cr : Int) (ro : RunOracle)
    (h1 : s1.is_socket_bound_ = false) (h2 : s2.is_socket_bound_ = true)
    (h3 : s3.fd_ = -1) (h4 : s4.fd_ = -1) (hr : sv.is_running_ = true) :
    ((s1.listen b smx lr).result = .error (.logicError
      "tcp::socket::listen: Socket must be bound before listenning for incoming connections.")) ∧
    ((s2.connect host1 port1 co).result = .error (.logicError
      ("tcp::socket::connect: Trying to connect a socket bound on port: " ++
        toString s2.port_ ++
        ". Invalid operation for a socket planned for a server application."))) ∧
    ((s3.send msg len sr).result = .error (.logicError
      "tcp::socket::send: Invalid operation. Trying to send data on a non connected socket.")) ∧
    ((s4.receive n rr cr).result = .error (.logicError
      "tcp::socket::send: Invalid operation. Trying to receive data on a non connected socket.")) ∧
    ((sv.run host2 port2 ro).result = .error (.runtimeError
      "tcp::server::run: Server is aldready running.")) ∧
    (∀ m m', Err.logicError m ≠ Err.runtimeError m') := by
  refine ⟨?_, ?_, ?_, ?_, ?_, ?_⟩
  · simp [socket.listen, h1]
  · simp [socket.connect, h2]
  · simp [socket.send, h3]
  · simp [socket.receive, h4]
  · simp [server.run, hr]
  · intro m m' hmm
    exact Err.noConfusion hmm

/-- Claim C7: on a socket with an open descriptor, `send` makes exactly one
underlying `::send` call with the full requested length, returns the byte
count of that call, and does not modify the socket (no partial-write retry
loop). -/
theorem send_one_full_call (s : socket) (msg : List Nat) (len : Nat) (sr : Int)
    (hfd : s.fd_ ≠ -1) (hsr : sr ≠ -1) :
    (s.send msg len sr).result = .ok sr ∧
    (s.send msg len sr).calls = [OsCall.osSend s.fd_ len] ∧
    (s.send msg len sr).state = s := by
  simp [socket.send, hfd, hsr]

/-- Claim C9: `listen` on a bound socket with a backlog greater than the OS
maximum `SOMAXCONN` is not fatal: a warning is surfaced, the OS clamps the
request to `SOMAXCONN` (strictly less than the request), and `listen` still
succeeds. -/
theorem listen_large_backlog_warns_and_succeeds (s : socket) (b smx : Nat) (lr : Int)
    (hb : s.is_socket_bound_ = true) (hgt : b > smx) (hlr : lr ≠ -1) :
    (s.listen b smx lr).result = .ok () ∧
    (s.listen b smx lr).output =
      ["tcp::socket::listen: Param backlog greater than SOMAXCONN.\nPlease refer to the value in /proc/sys/net/core/somaxconn. Param backlog will be truncated."] ∧
    osEffectiveBacklog b smx = smx ∧ osEffectiveBacklog b smx < b := by
  refine ⟨?_, ?_, ?_, ?_⟩
  · simp [socket.listen, hb, hlr]
  · simp [socket.listen, hb, hgt, hlr]
  · simp [osEffectiveBacklog, Nat.min_eq_right (Nat.le_of_lt hgt)]
  · simp [osEffectiveBacklog]
    omega

/-- Claim C10: on a socket with an open descriptor, a successful
`receive(size_to_read)` returns a buffer whose length is exactly
`size_to_read`, with the received bytes at the front and zero bytes at every
position beyond them (the buffer is zero-initialized and never trimmed to the
number of bytes read). -/
theorem receive_buffer_exact_length (s : socket) (n : Nat) (data : List Nat) (cr : Int)
    (hfd : s.fd_ ≠ -1) (hlen : data.length ≤ n) (hcr : cr ≠ -1) :
    (s.receive n (some data) cr).result = .ok (data ++ List.replicate (n - data.length) 0) ∧
    (data ++ List.replicate (n - data.length) 0).length = n ∧
    ∀ i, data.length ≤ i → (data ++ List.replicate (n - data.length) 0).getD i 0 = 0 := by
  refine ⟨?_, ?_, ?_⟩
  · by_cases h0 : data.length = 0
    · have hd : data = [] := List.eq_nil_of_length_eq_zero h0
      subst hd
      simp [socket.receive, socket.close, hfd, hcr]
    · simp [socket.receive, hfd, h0]
  · simp
    omega
  · intro i hi
    rcases Nat.lt_or_ge i n with hin | hin
    · rw [List.getD_eq_getElem?_getD, List.getElem?_append_right hi, List.getElem?_replicate]
      split <;> rfl
    · rw [List.getD_eq_getElem?_getD]
      have : (data ++ List.replicate (n - data.length) 0).length ≤ i := by
        simp
        omega
      rw [List.getElem?_eq_none this]
      rfl


/-- Every error `socket::listen` can throw. -/
theorem listen_result_errors (s : socket) (b smx : Nat) (lr : Int) (e : Err)
    (he : (s.listen b smx lr).result = .error e) :
    e = .logicError
      "tcp::socket::listen: Socket must be bound before listenning for incoming connections." ∨
    e = .runtimeError "tcp::socket::listen: listen() failed." := by
  by_cases hb : s.is_socket_bound_ = false <;> by_cases hl : lr = -1 <;>
    simp [socket.listen, hb, hl] at he <;> tauto

/-- Every error `socket::accept` can throw. -/
theorem accept_result_errors (s : socket) (o : AcceptOracle) (e : Err)
    (he : (s.accept o).result = .error e) :
    e = .runtimeError "tcp::socket::accpet: accept() failed." ∨
    e = .runtimeError "tcp::socket::accept: getnameinfo() failed." := by
  obtain ⟨a, ni⟩ := o
  by_cases ha : a = -1
  · simp [socket.accept, ha] at he
    tauto
  · rcases ni with _ | hp <;> simp [socket.accept, ha] at he <;> tauto

/-- Every error `socket::close` can throw. -/
theorem close_result_errors (s : socket) (cr : Int) (e : Err)
    (he : (s.close cr).result = .error e) :
    e = .runtimeError "tcp::socket::close: close() failed." := by
  by_cases hfd : s.fd_ = -1 <;> by_cases hc : cr = -1 <;>
    simp [socket.close, hfd, hc] at he <;> tauto

/-- Every error `socket::send` can throw. -/
theorem send_result_errors (s : socket) (msg : List Nat) (len : Nat) (sr : Int) (e : Err)
    (he : (s.send msg len sr).result = .error e) :
    e = .logicError
      "tcp::socket::send: Invalid operation. Trying to send data on a non connected socket." ∨
    e = .runtimeError "tcp::socket::send: send() failed." := by
  by_cases hfd : s.fd_ = -1 <;> by_cases hs : sr = -1 <;>
    simp [socket.send, hfd, hs] at he <;> tauto

/-- Every error `socket::receive` can throw. -/
theorem receive_result_errors (s : socket) (n : Nat) (rv : Option (List Nat)) (cr : Int)
    (e : Err) (he : (s.receive n rv cr).result = .error e) :
    e = .logicError
      "tcp::socket::send: Invalid operation. Trying to receive data on a non connected socket." ∨
    e = .runtimeError "tcp::socket::receive: recv() failed." ∨
    e = .runtimeError "tcp::socket::close: close() failed." := by
  by_cases hfd : s.fd_ = -1
  · simp [socket.receive, hfd] at he
    tauto
  · rcases rv with _ | data
    · simp [socket.receive, hfd] at he
      tauto
    · by_cases h0 : data.length = 0 <;> by_cases hc : cr = -1 <;>
        simp [socket.receive, socket.close, hfd, h0, hc] at he <;> tauto

/-- No error thrown out of `server::process` carries the already-running
message of `server::run`. -/
theorem process_errors_ne_running (sv : server) (o : ProcessOracle) (e : Err)
    (he : (sv.process o).result = .error e) :
    e ≠ .runtimeError "tcp::server::run: Server is aldready running." := by
  obtain ⟨a, ni, rv, cr, sr⟩ := o
  by_cases ha : a = -1
  · simp [server.process, socket.accept, ha] at he
    subst he; decide
  · rcases ni with _ | hp
    · simp [server.process, socket.accept, ha] at he
      subst he; decide
    · obtain ⟨h, p⟩ := hp
      rcases rv with _ | data
      · simp [server.process, socket.accept, socket.receive, socket.fromFd, ha] at he
        subst he; decide
      · by_cases h0 : data.length = 0
        · by_cases hc : cr = -1
          · simp [server.process, socket.accept, socket.receive, socket.close,
              socket.fromFd, ha, h0, hc] at he
            subst he; decide
          · simp [server.process, socket.accept, socket.receive, socket.close, socket.send,
              socket.fromFd, ha, h0, hc] at he
            subst he; decide
        · by_cases hs : sr = -1
          · simp [server.process, socket.accept, socket.receive, socket.send,
              socket.fromFd, ha, h0, hs] at he
            subst he; decide
          · simp [server.process, socket.accept, socket.receive, socket.send,
              socket.fromFd, ha, h0, hs] at he


/-- `server::run` returns the already-running error exactly when the running
flag is already set. -/
theorem run_already_running_iff (sv : server) (host : String) (port : Nat) (o : RunOracle) :
    ((sv.run host port o).result
        = .error (.runtimeError "tcp::server::run: Server is aldready running."))
      ↔ sv.is_running_ = true := by
  constructor
  · intro he
    by_contra hrn
    have hr : sv.is_running_ = false := by
      revert hrn
      cases sv.is_running_ <;> simp
    cases hb : (sv.socket_.bind host port o.bindO).result with
    | error eb =>
      simp [server.run, hr, hb] at he
      rcases bind_result_errors _ _ _ _ _ hb with h | h | h | h <;> subst h <;>
        exact absurd he (by decide)
    | ok u =>
      cases hl : ((sv.socket_.bind host port o.bindO).state.listen BACKLOG o.somaxconn
          o.listenRes).result with
      | error el =>
        simp [server.run, hr, hb, hl] at he
        rcases listen_result_errors _ _ _ _ _ hl with h | h <;> subst h <;>
          exact absurd he (by decide)
      | ok v =>
        simp [server.run, hr, hb, hl] at he
        exact process_errors_ne_running _ _ _ he rfl
  · intro hr
    simp [server.run, hr]


/-- The create-socket candidate loop makes no `::accept` call. -/
theorem create_socket_loop_no_accept (f : Nat → Int) (l : List Nat) :
    (create_socket_loop f l).2.2.filter OsCall.isAccept = [] := by
  induction l with
  | nil => simp [create_socket_loop]
  | cons c rest ih =>
    by_cases hc : f c = -1 <;> simp [create_socket_loop, hc, ih, OsCall.isAccept]

/-- `socket::bind` makes no `::accept` call. -/
theorem bind_calls_no_accept (s : socket) (host : String) (port : Nat) (o : BindOracle) :
    (s.bind host port o).calls.filter OsCall.isAccept = [] := by
  obtain ⟨gai, f, sor, bor⟩ := o
  rcases gai with _ | cands
  · simp [socket.bind, socket.get_addr_info, OsCall.isAccept]
  · by_cases hce : cands.isEmpty
    · have hcand : cands = [] := List.isEmpty_iff.mp hce
      subst hcand
      by_cases hfd : s.fd_ = -1
      · cases hloop : (create_socket_loop f s.addrinfo_).1 <;>
          by_cases hsor : sor = -1 <;> by_cases hbor : bor = -1 <;>
          simp [socket.bind, socket.get_addr_info, socket.create_socket, hfd, hloop,
            hsor, hbor, OsCall.isAccept, List.filter_append, create_socket_loop_no_accept]
      · by_cases hsor : sor = -1 <;> by_cases hbor : bor = -1 <;>
          simp [socket.bind, socket.get_addr_info, socket.create_socket, hfd,
            hsor, hbor, OsCall.isAccept, List.filter_append]
    · by_cases hfd : s.fd_ = -1
      · cases hloop : (create_socket_loop f cands).1 <;>
          by_cases hsor : sor = -1 <;> by_cases hbor : bor = -1 <;>
          simp [socket.bind, socket.get_addr_info, socket.create_socket, hce, hfd, hloop,
            hsor, hbor, OsCall.isAccept, List.filter_append, create_socket_loop_no_accept]
      · by_cases hsor : sor = -1 <;> by_cases hbor : bor = -1 <;>
          simp [socket.bind, socket.get_addr_info, socket.create_socket, hce, hfd,
            hsor, hbor, OsCall.isAccept, List.filter_append]

/-- `socket::listen` makes no `::accept` call. -/
theorem listen_calls_no_accept (s : socket) (b smx : Nat) (lr : Int) :
    (s.listen b smx lr).calls.filter OsCall.isAccept = [] := by
  by_cases hb : s.is_socket_bound_ = false <;> by_cases hl : lr = -1 <;>
    simp [socket.listen, hb, hl, OsCall.isAccept]

/-- `server::process` leaves the running flag unchanged. -/
theorem process_state_running (sv : server) (o : ProcessOracle) :
    (sv.process o).state.is_running_ = sv.is_running_ := by
  obtain ⟨a, ni, rv, cr, sr⟩ := o
  by_cases ha : a = -1
  · simp [server.process, socket.accept, ha]
  · rcases ni with _ | hp
    · simp [server.process, socket.accept, ha]
    · obtain ⟨h, p⟩ := hp
      rcases rv with _ | data
      · simp [server.process, socket.accept, socket.receive, socket.fromFd, ha]
      · by_cases h0 : data.length = 0
        · by_cases hc : cr = -1 <;>
            simp [server.process, socket.accept, socket.receive, socket.close, socket.send,
              socket.fromFd, ha, h0, hc]
        · by_cases hs : sr = -1 <;>
            simp [server.process, socket.accept, socket.receive, socket.send,
              socket.fromFd, ha, h0, hs]

/-- A successful `server::process` cycle makes exactly one `::accept` call,
on the listening socket. -/
theorem process_calls_accept_once (sv : server) (o : ProcessOracle)
    (hp : (sv.process o).result = .ok ()) :
    (sv.process o).calls.filter OsCall.isAccept = [OsCall.osAccept sv.socket_.fd_] := by
  obtain ⟨a, ni, rv, cr, sr⟩ := o
  by_cases ha : a = -1
  · simp [server.process, socket.accept, ha] at hp
  · rcases ni with _ | hp2
    · simp [server.process, socket.accept, ha] at hp
    · obtain ⟨h, p⟩ := hp2
      rcases rv with _ | data
      · simp [server.process, socket.accept, socket.receive, socket.fromFd, ha] at hp
      · by_cases h0 : data.length = 0
        · by_cases hc : cr = -1 <;>
            simp [server.process, socket.accept, socket.receive, socket.close, socket.send,
              socket.fromFd, ha, h0, hc] at hp
        · by_cases hs : sr = -1
          · simp [server.process, socket.accept, socket.receive, socket.send,
              socket.fromFd, ha, h0, hs] at hp
          · simp [server.process, socket.accept, socket.receive, socket.send,
              socket.fromFd, ha, h0, hs, OsCall.isAccept, List.filter_append]

/-- Claim C6 (amended): a successful `run` serves exactly one connection
(exactly one `::accept` call) and then returns, but leaves the running flag
set, so a second invocation of `run` without an intervening `stop` is
rejected with the already-running error; `stop` (with the OS close
succeeding) clears the flag, and `run` on a not-running server is never
rejected with that error. -/
theorem run_single_shot (host : String) (port : Nat) (o : RunOracle) (cr : Int) (sv0 : server)
    (h0 : sv0.is_running_ = false) (hok : (sv0.run host port o).result = .ok ())
    (hcr : cr ≠ -1) :
    ((sv0.run host port o).calls.filter OsCall.isAccept).length = 1 ∧
    (sv0.run host port o).state.is_running_ = true ∧
    (∀ h2 p2 o2, ((sv0.run host port o).state.run h2 p2 o2).result
        = .error (.runtimeError "tcp::server::run: Server is aldready running.")) ∧
    (((sv0.run host port o).state.stop cr).state.is_running_ = false) ∧
    (∀ sv2 : server, sv2.is_running_ = false → ∀ h2 p2 o2,
      (sv2.run h2 p2 o2).result
        ≠ .error (.runtimeError "tcp::server::run: Server is aldready running.")) := by
  cases hb : (sv0.socket_.bind host port o.bindO).result with
  | error eb => simp [server.run, h0, hb] at hok
  | ok u =>
    cases hl : ((sv0.socket_.bind host port o.bindO).state.listen BACKLOG o.somaxconn
        o.listenRes).result with
    | error el => simp [server.run, h0, hb, hl] at hok
    | ok v =>
      simp only [server.run, h0, hb, hl] at hok
      have hstate : (sv0.run host port o).state.is_running_ = true := by
        simp [server.run, h0, hb, hl, process_state_running]
      refine ⟨?_, hstate, ?_, ?_, ?_⟩
      · simp [server.run, h0, hb, hl, List.filter_append, bind_calls_no_accept,
          listen_calls_no_accept, process_calls_accept_once _ _ hok]
      · intro h2 p2 o2
        exact (run_already_running_iff _ _ _ _).mpr hstate
      · by_cases hfd : (sv0.run host port o).state.socket_.fd_ = -1 <;>
          simp [server.stop, hstate, socket.close, hcr, hfd]
      · intro sv2 h2 hh pp oo hcontr
        have := (run_already_running_iff _ _ _ _).mp hcontr
        rw [h2] at this
        exact Bool.noConfusion this


/-- Claim C2 counterexample: `bind` on a fresh socket whose `setsockopt`
fails after the descriptor was created (as fd 3) throws, yet leaves the
descriptor at 3, not in the unopened/closed sentinel state as the claim
states. -/
theorem bind_setsockopt_failure_descriptor_open :
    (socket.bind socket.mk0 "127.0.0.1" 12345
        ⟨some [0], fun _ => 3, -1, 0⟩).result
      = .error (.runtimeError "tcp::socket::bind: setsockopt() failed.") ∧
    (socket.bind socket.mk0 "127.0.0.1" 12345
        ⟨some [0], fun _ => 3, -1, 0⟩).state.fd_ = 3 ∧
    (socket.bind socket.mk0 "127.0.0.1" 12345
        ⟨some [0], fun _ => 3, -1, 0⟩).state.fd_ ≠ -1 := by
  exact ⟨rfl, rfl, by decide⟩

/-- Claim C6 counterexample: after a fully successful `run` returns, a second
`run` on the same server without an intervening `stop` IS rejected with the
already-running error, contradicting the claim that it is not. -/
theorem run_again_without_stop_rejected :
    (server.run server.mk0 "127.0.0.1" 12345
        ⟨⟨some [0], fun _ => 3, 0, 0⟩, 4096, 0,
          ⟨4, some ("127.0.0.1", 5555), some (strBytes "PING\n"), 0, 29⟩⟩).result
      = .ok () ∧
    (server.run (server.run server.mk0 "127.0.0.1" 12345
        ⟨⟨some [0], fun _ => 3, 0, 0⟩, 4096, 0,
          ⟨4, some ("127.0.0.1", 5555), some (strBytes "PING\n"), 0, 29⟩⟩).state
        "127.0.0.1" 12345
        ⟨⟨some [0], fun _ => 3, 0, 0⟩, 4096, 0,
          ⟨4, some ("127.0.0.1", 5555), some (strBytes "PING\n"), 0, 29⟩⟩).result
      = .error (.runtimeError "tcp::server::run: Server is aldready running.") := by
  exact ⟨rfl, rfl⟩

/-- `server::process` never calls `::bind` or `::connect` (so the accepted
client socket is never bound or connected again by the server). -/
theorem process_no_bind_connect (sv : server) (o : ProcessOracle) :
    (sv.process o).calls.filter OsCall.isBindOrConnect = [] := by
  obtain ⟨a, ni, rv, cr, sr⟩ := o
  by_cases ha : a = -1
  · simp [server.process, socket.accept, ha, OsCall.isBindOrConnect]
  · rcases ni with _ | hp
    · simp [server.process, socket.accept, ha, OsCall.isBindOrConnect]
    · obtain ⟨h, p⟩ := hp
      rcases rv with _ | data
      · simp [server.process, socket.accept, socket.receive, socket.fromFd, ha,
          OsCall.isBindOrConnect]
      · by_cases h0 : data.length = 0
        · by_cases hc : cr = -1 <;>
            simp [server.process, socket.accept, socket.receive, socket.close, socket.send,
              socket.fromFd, ha, h0, hc, OsCall.isBindOrConnect, List.filter_append]
        · by_cases hs : sr = -1 <;>
            simp [server.process, socket.accept, socket.receive, socket.send,
              socket.fromFd, ha, h0, hs, OsCall.isBindOrConnect, List.filter_append]

/-- Claim C8: `accept` on a socket returns a brand-new Socket pre-populated
with the newly accepted descriptor and the peer numeric host and port from
`getnameinfo` invoked with the numeric-only flags
`NI_NUMERICHOST | NI_NUMERICSERV` (no DNS), the returned socket has
`isBound = false`, and the server code never binds or connects an accepted
socket (`process` makes no `::bind` or `::connect` call). -/
theorem accept_returns_fresh_socket (s : socket) (a : Int) (h : String) (p : Nat)
    (ha : a ≠ -1) :
    ((s.accept ⟨a, some (h, p)⟩).result = .ok (socket.fromFd a h p)) ∧
    (socket.fromFd a h p).fd_ = a ∧
    (socket.fromFd a h p).host_ = h ∧
    (socket.fromFd a h p).port_ = p ∧
    (socket.fromFd a h p).is_socket_bound_ = false ∧
    ((s.accept ⟨a, some (h, p)⟩).calls
      = [OsCall.osAccept s.fd_, OsCall.getnameinfo (NI_NUMERICHOST ||| NI_NUMERICSERV)]) ∧
    (∀ (sv : server) (o2 : ProcessOracle),
      (sv.process o2).calls.filter OsCall.isBindOrConnect = []) := by
  refine ⟨?_, rfl, rfl, rfl, rfl, ?_, process_no_bind_connect⟩
  · simp [socket.accept, ha]
  · simp [socket.accept, ha]


/-- Witness for C1 at a concrete input. -/
theorem process_ping_reply_then_callback_witness :
    (server.process ⟨socket.fromFd 3 "127.0.0.1" 12345, false, true⟩
        ⟨4, some ("127.0.0.1", 5555), some (strBytes "PING\n"), 0, 29⟩).result = .ok () ∧
    (server.process ⟨socket.fromFd 3 "127.0.0.1" 12345, false, true⟩
        ⟨4, some ("127.0.0.1", 5555), some (strBytes "PING\n"), 0, 29⟩).events =
      [Event.sent (socket.fromFd 4 "127.0.0.1" 5555)
          (strBytes "Executing command [PING] ...\n"),
        Event.callbackInvoked (strBytes "PING") (socket.fromFd 4 "127.0.0.1" 5555)] ∧
    (server.process ⟨socket.fromFd 3 "127.0.0.1" 12345, false, true⟩
        ⟨4, some ("127.0.0.1", 5555), some (strBytes "PING\n"), 0, 29⟩).calls =
      [OsCall.osAccept (socket.fromFd 3 "127.0.0.1" 12345).fd_,
        OsCall.getnameinfo (NI_NUMERICHOST ||| NI_NUMERICSERV),
        OsCall.osRecv 4 BUFFER_SIZE,
        OsCall.osSend 4 (strBytes "Executing command [PING] ...\n").length] :=
  process_ping_reply_then_callback ⟨socket.fromFd 3 "127.0.0.1" 12345, false, true⟩
    4 "127.0.0.1" 5555 0 29 rfl (by decide) (by decide)

/-- Witness for C2 at a concrete input. -/
theorem bind_failure_stages_witness :
    (socket.bind socket.mk0 "0.0.0.0" 8080 ⟨none, fun _ => -1, 0, 0⟩).state.fd_ = -1 ∧
    (socket.bind socket.mk0 "0.0.0.0" 8080 ⟨none, fun _ => -1, 0, 0⟩).result
      = .error (.runtimeError "tcp::socket::get_addr_info: getaddrinfo() failed.") :=
  (bind_failure_stages socket.mk0 "0.0.0.0" 8080 none (fun _ => -1) 0 0 rfl rfl rfl).2.1 rfl

/-- Witness for C3 at a concrete input. -/
theorem receive_peer_closed_witness :
    (socket.receive (socket.fromFd 6 "10.0.0.1" 80) 3 (some []) 0).result
      = .ok (List.replicate 3 0) ∧
    (socket.receive (socket.fromFd 6 "10.0.0.1" 80) 3 (some []) 0).state.fd_ = -1 ∧
    (socket.receive (socket.fromFd 6 "10.0.0.1" 80) 3 (some []) 0).output
      = ["Connection closed by peer.\n"] :=
  receive_peer_closed (socket.fromFd 6 "10.0.0.1" 80) 3 0 (by decide) (by decide)

/-- Witness for C4 at a concrete input. -/
theorem close_idempotent_when_os_succeeds_witness :
    ((socket.fromFd 9 "127.0.0.1" 80).close 0).result = .ok () ∧
    ((socket.fromFd 9 "127.0.0.1" 80).close 0).state.fd_ = -1 ∧
    (((socket.fromFd 9 "127.0.0.1" 80).close 0).state.close 5).result = .ok () ∧
    (((socket.fromFd 9 "127.0.0.1" 80).close 0).state.close 5).state
      = ((socket.fromFd 9 "127.0.0.1" 80).close 0).state :=
  ⟨(close_idempotent_when_os_succeeds (socket.fromFd 9 "127.0.0.1" 80) 0 5 (-1)
      (by decide) rfl).1,
    (close_idempotent_when_os_succeeds (socket.fromFd 9 "127.0.0.1" 80) 0 5 (-1)
      (by decide) rfl).2.1,
    (close_idempotent_when_os_succeeds (socket.fromFd 9 "127.0.0.1" 80) 0 5 (-1)
      (by decide) rfl).2.2.1,
    (close_idempotent_when_os_succeeds (socket.fromFd 9 "127.0.0.1" 80) 0 5 (-1)
      (by decide) rfl).2.2.2.1⟩

/-- Witness for C5 at concrete inputs. -/
theorem lifecycle_violations_error_kinds_witness :
    ((socket.mk0.listen 1 4096 0).result = .error (.logicError
      "tcp::socket::listen: Socket must be bound before listenning for incoming connections.")) ∧
    (((⟨3, "127.0.0.1", 7777, [], none, true⟩ : socket).connect "10.0.0.1" 80
        ⟨none, fun _ => -1, 0⟩).result = .error (.logicError
      ("tcp::socket::connect: Trying to connect a socket bound on port: " ++
        toString (⟨3, "127.0.0.1", 7777, [], none, true⟩ : socket).port_ ++
        ". Invalid operation for a socket planned for a server application."))) ∧
    ((socket.mk0.send [1] 1 0).result = .error (.logicError
      "tcp::socket::send: Invalid operation. Trying to send data on a non connected socket.")) ∧
    ((socket.mk0.receive 1 none 0).result = .error (.logicError
      "tcp::socket::send: Invalid operation. Trying to receive data on a non connected socket.")) ∧
    ((server.run ⟨socket.mk0, true, false⟩ "127.0.0.1" 12345
        ⟨⟨none, fun _ => -1, 0, 0⟩, 4096, 0, ⟨-1, none, none, 0, 0⟩⟩).result
      = .error (.runtimeError "tcp::server::run: Server is aldready running.")) := by
  have hw := lifecycle_violations_error_kinds socket.mk0
    (⟨3, "127.0.0.1", 7777, [], none, true⟩ : socket) socket.mk0 socket.mk0
    (⟨socket.mk0, true, false⟩ : server) 1 4096 0 "10.0.0.1" "127.0.0.1" 80 12345
    ⟨none, fun _ => -1, 0⟩ [1] 1 0 1 none 0
    ⟨⟨none, fun _ => -1, 0, 0⟩, 4096, 0, ⟨-1, none, none, 0, 0⟩⟩
    rfl rfl rfl rfl rfl
  exact ⟨hw.1, hw.2.1, hw.2.2.1, hw.2.2.2.1, hw.2.2.2.2.1⟩

/-- Witness for C6 at a concrete input. -/
theorem run_single_shot_witness :
    (((server.run server.mk0 "127.0.0.1" 12345
        ⟨⟨some [0], fun _ => 3, 0, 0⟩, 4096, 0,
          ⟨4, some ("127.0.0.1", 5555), some (strBytes "PING\n"), 0, 29⟩⟩).calls.filter
        OsCall.isAccept).length = 1) ∧
    ((server.run server.mk0 "127.0.0.1" 12345
        ⟨⟨some [0], fun _ => 3, 0, 0⟩, 4096, 0,
          ⟨4, some ("127.0.0.1", 5555), some (strBytes "PING\n"), 0, 29⟩⟩).state.is_running_
      = true) ∧
    (((server.run server.mk0 "127.0.0.1" 12345
        ⟨⟨some [0], fun _ => 3, 0, 0⟩, 4096, 0,
          ⟨4, some ("127.0.0.1", 5555), some (strBytes "PING\n"), 0, 29⟩⟩).state.stop
        0).state.is_running_ = false) :=
  ⟨(run_single_shot "127.0.0.1" 12345
      ⟨⟨some [0], fun _ => 3, 0, 0⟩, 4096, 0,
        ⟨4, some ("127.0.0.1", 5555), some (strBytes "PING\n"), 0, 29⟩⟩ 0 server.mk0
      rfl rfl (by decide)).1,
    (run_single_shot "127.0.0.1" 12345
      ⟨⟨some [0], fun _ => 3, 0, 0⟩, 4096, 0,
        ⟨4, some ("127.0.0.1", 5555), some (strBytes "PING\n"), 0, 29⟩⟩ 0 server.mk0
      rfl rfl (by decide)).2.1,
    (run_single_shot "127.0.0.1" 12345
      ⟨⟨some [0], fun _ => 3, 0, 0⟩, 4096, 0,
        ⟨4, some ("127.0.0.1", 5555), some (strBytes "PING\n"), 0, 29⟩⟩ 0 server.mk0
      rfl rfl (by decide)).2.2.2.1⟩

/-- Witness for C7 at a concrete input. -/
theorem send_one_full_call_witness :
    ((socket.fromFd 5 "127.0.0.1" 80).send [1, 2, 3] 3 3).result = .ok 3 ∧
    ((socket.fromFd 5 "127.0.0.1" 80).send [1, 2, 3] 3 3).calls = [OsCall.osSend 5 3] ∧
    ((socket.fromFd 5 "127.0.0.1" 80).send [1, 2, 3] 3 3).state
      = socket.fromFd 5 "127.0.0.1" 80 :=
  send_one_full_call (socket.fromFd 5 "127.0.0.1" 80) [1, 2, 3] 3 3 (by decide) (by decide)

/-- Witness for C8 at a concrete input. -/
theorem accept_returns_fresh_socket_witness :
    (((socket.fromFd 3 "127.0.0.1" 12345).accept ⟨7, some ("192.168.0.9", 40000)⟩).result
      = .ok (socket.fromFd 7 "192.168.0.9" 40000)) ∧
    (socket.fromFd 7 "192.168.0.9" 40000).fd_ = 7 ∧
    (socket.fromFd 7 "192.168.0.9" 40000).is_socket_bound_ = false ∧
    (((socket.fromFd 3 "127.0.0.1" 12345).accept ⟨7, some ("192.168.0.9", 40000)⟩).calls
      = [OsCall.osAccept (socket.fromFd 3 "127.0.0.1" 12345).fd_,
          OsCall.getnameinfo (NI_NUMERICHOST ||| NI_NUMERICSERV)]) := by
  have hw := accept_returns_fresh_socket (socket.fromFd 3 "127.0.0.1" 12345) 7
    "192.168.0.9" 40000 (by decide)
  exact ⟨hw.1, hw.2.1, hw.2.2.2.2.1, hw.2.2.2.2.2.1⟩

/-- Witness for C9 at a concrete input. -/
theorem listen_large_backlog_warns_and_succeeds_witness :
    ((⟨3, "127.0.0.1", 7777, [], none, true⟩ : socket).listen 5000 4096 0).result = .ok () ∧
    ((⟨3, "127.0.0.1", 7777, [], none, true⟩ : socket).listen 5000 4096 0).output =
      ["tcp::socket::listen: Param backlog greater than SOMAXCONN.\nPlease refer to the value in /proc/sys/net/core/somaxconn. Param backlog will be truncated."] ∧
    osEffectiveBacklog 5000 4096 = 4096 ∧ osEffectiveBacklog 5000 4096 < 5000 :=
  listen_large_backlog_warns_and_succeeds (⟨3, "127.0.0.1", 7777, [], none, true⟩ : socket)
    5000 4096 0 rfl (by decide) (by decide)

/-- Witness for C10 at a concrete input. -/
theorem receive_buffer_exact_length_witness :
    ((socket.fromFd 5 "127.0.0.1" 80).receive 4 (some [1, 2]) 0).result
      = .ok ([1, 2] ++ List.replicate (4 - [1, 2].length) 0) ∧
    (([1, 2] : List Nat) ++ List.replicate (4 - [1, 2].length) 0).length = 4 :=
  ⟨(receive_buffer_exact_length (socket.fromFd 5 "127.0.0.1" 80) 4 [1, 2] 0
      (by decide) (by decide) (by decide)).1,
    (receive_buffer_exact_length (socket.fromFd 5 "127.0.0.1" 80) 4 [1, 2] 0
      (by decide) (by decide) (by decide)).2.1⟩
